import Mathlib

/-!
Verification of the tile-request pipeline of the ee-tile-request repository
(src/main.py), as a shallow embedding.

The program is a validation and dispatch layer: `get_tile` resolves an asset
identifier into an Earth Engine object handle, applies optional temporal and
spatial filters, normalizes visualization parameters, and delegates tile-URL
generation to the backend.  All remote/external behavior (the Earth Engine
catalog and tiling backend, Python's json.loads, geemap's palette validator,
Python's float() parser) is abstracted as an environment of oracle functions
(`Env`); the repository's own control flow is embedded faithfully, including
Python truthiness of strings and of lists.
-/

/-- JSON-style scalar/array values appearing in a visualization-parameters
mapping (min, max, palette, bands, ...). -/
inductive JVal where
  | jnull : JVal
  | jbool : Bool → JVal
  | jnum : Int → JVal
  | jstr : String → JVal
  | jarr : List JVal → JVal

/-- A Python dict from string keys to values, as an association list in
insertion order (Python dicts preserve insertion order; keys are unique). -/
def VisDict : Type := List (String × JVal)

/-- Lookup of a key in a dict: the first binding wins (Python dict keys are
unique, so this is the binding). -/
def dictLookup : VisDict → String → Option JVal
  | [], _ => none
  | (k1, v1) :: rest, k => if k1 = k then some v1 else dictLookup rest k

/-- Assignment d[k] = v on a Python dict: replaces the value at an existing
key in place (keeping its position), otherwise appends the new binding. -/
def dictInsert : VisDict → String → JVal → VisDict
  | [], k, v => [(k, v)]
  | (k1, v1) :: rest, k, v =>
      if k1 = k then (k1, v) :: rest else (k1, v1) :: dictInsert rest k v

/-- A client-side geometry object as returned by ee.Geometry.BBox: the
client may normalize the coordinates it was given (clamping latitudes,
canonicalizing longitudes), so the stored coordinates are whatever the
client produced, not necessarily the caller's list. -/
structure Geometry where
  coords : List Rat

/-- Earth Engine object handles flowing through the pipeline, as a term
recording how the handle was built.  The base constructors correspond to
ee.Image(asset_id), ee.ImageCollection(asset_id), ee.FeatureCollection(asset_id);
filterDate, filterBounds and clip record the filter calls made by get_tile;
`other` stands for any Python value of a different type (for example the
result of evaluating an expression identifier). -/
inductive EEObject where
  | image : String → EEObject
  | imageCollection : String → EEObject
  | featureCollection : String → EEObject
  | filterDate : EEObject → String → String → EEObject
  | filterBounds : EEObject → Geometry → EEObject
  | clip : EEObject → Geometry → EEObject
  | other : String → EEObject

/-- isinstance(x, ee.ImageCollection): filterDate and filterBounds on an
ImageCollection return an ImageCollection, clip on an Image returns an
Image, so the filter constructors preserve the runtime class of the base. -/
def isImageCollection : EEObject → Bool
  | .imageCollection _ => true
  | .filterDate o _ _ => isImageCollection o
  | .filterBounds o _ => isImageCollection o
  | .clip o _ => isImageCollection o
  | _ => false

/-- isinstance(x, ee.FeatureCollection). -/
def isFeatureCollection : EEObject → Bool
  | .featureCollection _ => true
  | .filterDate o _ _ => isFeatureCollection o
  | .filterBounds o _ => isFeatureCollection o
  | .clip o _ => isFeatureCollection o
  | _ => false

/-- isinstance(x, ee.Image). -/
def isImage : EEObject → Bool
  | .image _ => true
  | .filterDate o _ _ => isImage o
  | .filterBounds o _ => isImage o
  | .clip o _ => isImage o
  | _ => false

/-- The external collaborators of the pipeline, abstracted as oracles.
Every call that leaves the process (or enters an external library) returns
`Except String` (an exception with its message) or `Option` (for Python
float(), which either parses or raises ValueError). -/
structure Env where
  /-- ee.data.getAsset(asset_id)["type"]: the declared catalog type of the
  identifier, or an exception (for example a catalog miss). -/
  getAsset : String → Except String String
  /-- eval(asset_id) for identifiers starting with "ee.": evaluates
  caller-supplied text against the backend and returns some object. -/
  evalExpr : String → Except String EEObject
  /-- json.loads on a brace-delimited string: the parsed dict or a parse
  exception. -/
  jsonLoads : String → Except String VisDict
  /-- geemap.ee_tile_layers._validate_palette: the validated palette value or
  an exception for unrecognized formats. -/
  validatePalette : JVal → Except String JVal
  /-- ee.Geometry.BBox(west, south, east, north): the constructed geometry,
  or a client-side exception — the EE client validates the coordinates and
  raises, for example, when south > 90 or north < -90. -/
  bboxGeometry : List Rat → Except String Geometry
  /-- geemap.ee_tile_layers._get_tile_url_format(ee_object, vis_params): the
  tile URL template, or a backend exception. -/
  tileUrl : EEObject → VisDict → Except String String
  /-- Python float(s): some value, or none when float() raises ValueError. -/
  parseFloat : String → Option Rat

/-- Python whitespace characters removed by str.strip() with no argument. -/
def pyWhitespace (c : Char) : Bool :=
  c = ' ' || c = '\t' || c = '\n' || c = '\r' || c = '\x0b' || c = '\x0c'

/-- Python str.strip(): removes leading and trailing whitespace. -/
def pyStrip (s : String) : String :=
  ⟨((s.data.dropWhile pyWhitespace).reverse.dropWhile pyWhitespace).reverse⟩

/-- Python str.startswith(pre). -/
def pyStartsWith (s pre : String) : Bool :=
  pre.data.isPrefixOf s.data

/-- Python str.endswith(suf). -/
def pyEndsWith (s suf : String) : Bool :=
  suf.data.isSuffixOf s.data

/-- Splitting a character list at every comma; the list of pieces is never
empty and splitting the empty list yields one empty piece, matching
Python's str.split(",") on the underlying characters. -/
def splitOnComma : List Char → List (List Char)
  | [] => [[]]
  | c :: rest =>
      let r := splitOnComma rest
      if c = ',' then [] :: r
      else
        match r with
        | [] => [[c]]
        | h :: t => (c :: h) :: t

/-- Python str.split(","). -/
def pySplitComma (s : String) : List String :=
  (splitOnComma s.data).map (fun l => ⟨l⟩)

/-- The truthy value of an optional date string, as Python sees it: None and
the empty string are falsy; a non-empty string is kept. -/
def presentStr : Option String → Option String
  | none => none
  | some s => if s = "" then none else some s

/-- Python truthiness of an optional string argument. -/
def strTruthy (o : Option String) : Bool :=
  (presentStr o).isSome

/-- The asset-resolution stage of get_tile (src/main.py lines 128-140):
identifiers starting with "ee." are evaluated as expressions; otherwise the
catalog's declared type dispatches to the handle constructor, and any other
declared type raises ValueError. -/
def resolveAsset (env : Env) (assetId : String) : Except String EEObject :=
  if pyStartsWith assetId "ee." then env.evalExpr assetId
  else
    match env.getAsset assetId with
    | .error m => .error m
    | .ok t =>
        if t = "IMAGE" then .ok (.image assetId)
        else if t = "IMAGE_COLLECTION" then .ok (.imageCollection assetId)
        else if t = "TABLE" ∨ t = "TABLE_COLLECTION" then .ok (.featureCollection assetId)
        else .error ("Unsupported data type: " ++ t)

/-- The date-filtering stage of get_tile (src/main.py lines 142-154):
runs only when start_date or end_date is truthy; requires an ImageCollection;
an open side defaults to the sentinel bound 1970-01-01 or 2100-01-01.
The (none, none) match arm is unreachable under the truthiness guard. -/
def applyDateFilter (o : EEObject) (startDate endDate : Option String) :
    Except String EEObject :=
  if strTruthy startDate || strTruthy endDate then
    if isImageCollection o then
      match presentStr startDate, presentStr endDate with
      | some sd, some ed => .ok (.filterDate o sd ed)
      | some sd, none => .ok (.filterDate o sd "2100-01-01")
      | none, some ed => .ok (.filterDate o "1970-01-01" ed)
      | none, none => .ok o
    else .error "Date filtering is only supported for ImageCollections"
  else .ok o

/-- The bounding-box stage of get_tile (src/main.py lines 156-172): the
block is guarded by Python truthiness of bbox, so an empty list skips it
entirely; a non-empty list of length other than 4 raises ValueError before
anything else; then ee.Geometry.BBox(*bbox) is constructed, which may raise
client-side (for example for out-of-range latitudes); then collections get
filterBounds and images get clip, and any other object type raises
ValueError. -/
def applyBBox (env : Env) (o : EEObject) (bbox : Option (List Rat)) :
    Except String EEObject :=
  match bbox with
  | none => .ok o
  | some b =>
      if b = [] then .ok o
      else if b.length ≠ 4 then
        .error "bbox must be a list of 4 values: [west, south, east, north]"
      else
        match env.bboxGeometry b with
        | .error m => .error m
        | .ok g =>
            if isImageCollection o then .ok (.filterBounds o g)
            else if isFeatureCollection o then .ok (.filterBounds o g)
            else if isImage o then .ok (.clip o g)
            else .error "Bounding box filtering not supported for this object type"

/-- Validation of the palette entry of a normalized vis_params dict
(src/main.py lines 188-189): when a palette key is present its value is
replaced by the validated form; otherwise the dict passes through. -/
def validateDictPalette (env : Env) (d : VisDict) : Except String VisDict :=
  match dictLookup d "palette" with
  | some p =>
      match env.validatePalette p with
      | .ok p2 => .ok (dictInsert d "palette" p2)
      | .error m => .error m
  | none => .ok d

/-- The source form of the vis_params argument: Python None, a str, a dict,
or any other Python type (the `other` payload names that type). -/
inductive VisSource where
  | none : VisSource
  | str : String → VisSource
  | dict : VisDict → VisSource
  | other : String → VisSource

/-- The visualization-normalization stage of get_tile (src/main.py lines
174-189): None becomes the empty dict; a string of length zero becomes the
two-character string holding an empty JSON object, then any brace-delimited
string goes through json.loads and any other string raises ValueError; a
dict passes through; any other type raises ValueError.  The palette entry
of the resulting dict is then validated. -/
def normalizeVisSource (env : Env) (vis : VisSource) : Except String VisDict :=
  match vis with
  | .none => validateDictPalette env []
  | .str s =>
      let s1 := if s = "" then "\x7b\x7d" else s
      if pyStartsWith s1 "\x7b" && pyEndsWith s1 "\x7d" then
        match env.jsonLoads s1 with
        | .ok d => validateDictPalette env d
        | .error m => .error m
      else .error "Unsupported vis_params type: str"
  | .dict d => validateDictPalette env d
  | .other desc => .error ("Unsupported vis_params type: " ++ desc)

/-- Resolution plus both filter stages, in the source's order: temporal
filtering runs before spatial filtering. -/
def resolveFiltered (env : Env) (assetId : String)
    (startDate endDate : Option String) (bbox : Option (List Rat)) :
    Except String EEObject :=
  match resolveAsset env assetId with
  | .error m => .error m
  | .ok o1 =>
      match applyDateFilter o1 startDate endDate with
      | .error m => .error m
      | .ok o2 => applyBBox env o2 bbox

/-- The body of the try block of get_tile (src/main.py lines 127-192):
resolve, filter by date, filter by bbox, normalize vis_params, format the
tile URL; the first exception short-circuits the rest. -/
def get_tile_except (env : Env) (assetId : String) (vis : VisSource)
    (startDate endDate : Option String) (bbox : Option (List Rat)) :
    Except String String :=
  match resolveFiltered env assetId startDate endDate bbox with
  | .error m => .error m
  | .ok o =>
      match normalizeVisSource env vis with
      | .error m => .error m
      | .ok d => env.tileUrl o d

/-- get_tile (src/main.py lines 126-194): the whole pipeline wrapped in
try/except Exception, returning the URL on success and the string
"Error: " followed by the exception message on any failure. -/
def get_tile (env : Env) (assetId : String) (vis : VisSource)
    (startDate endDate : Option String) (bbox : Option (List Rat)) : String :=
  match get_tile_except env assetId vis startDate endDate bbox with
  | .ok url => url
  | .error m => "Error: " ++ m

/-- Parsing of the bbox textbox string of the Gradio surface (src/main.py
line 235): split on commas, strip each piece, parse each as a Python float;
any ValueError makes the whole parse fail. -/
def parseBBoxStr (env : Env) (s : String) : Option (List Rat) :=
  (pySplitComma s).mapM (fun x => env.parseFloat (pyStrip x))

/-- get_tile_gradio (src/main.py lines 225-239): blank date fields become
None, a blank bbox field becomes None, a non-blank bbox field is parsed as
comma-separated floats and a parse failure returns a literal error string
without calling get_tile; otherwise the call is forwarded to get_tile. -/
def get_tile_gradio (env : Env) (assetId : String) (vis : VisSource)
    (startDate endDate bboxStr : String) : String :=
  let sd := if pyStrip startDate = "" then Option.none else Option.some (pyStrip startDate)
  let ed := if pyStrip endDate = "" then Option.none else Option.some (pyStrip endDate)
  if pyStrip bboxStr = "" then get_tile env assetId vis sd ed Option.none
  else
    match parseBBoxStr env bboxStr with
    | Option.none => "Error: bbox must be comma-separated numbers (west,south,east,north)"
    | Option.some b => get_tile env assetId vis sd ed (Option.some b)

/-- A concrete sample backend used to witness the theorems on concrete
inputs: a small catalog, a json parser defined on the empty object, an
accepting palette validator, a geometry constructor that mirrors the EE
client's latitude validation, a fixed tile URL, and a float parser that
rejects everything. -/
def defEnv : Env where
  getAsset := fun a =>
    if a = "USGS/SRTMGL1_003" then .ok "IMAGE"
    else if a = "some/collection" then .ok "IMAGE_COLLECTION"
    else if a = "some/table" then .ok "TABLE"
    else .error ("Asset not found: " ++ a)
  evalExpr := fun e => .ok (.other e)
  jsonLoads := fun s => if s = "\x7b\x7d" then .ok [] else .error "JSON parse error"
  validatePalette := fun p => .ok p
  bboxGeometry := fun b =>
    match b with
    | [_, s, _, n] =>
        if s > 90 ∨ n < -90 then
          .error "Geometry.BBox: south must be at most +90 and north at least -90"
        else .ok ⟨b⟩
    | _ => .error "Geometry.BBox: expected 4 coordinates"
  tileUrl := fun _ _ => .ok "https://earthengine.googleapis.com/map/tiles"
  parseFloat := fun _ => Option.none

/-! Helper lemmas shared by several claim proofs. -/

theorem dictLookup_dictInsert (d : VisDict) (k k1 : String) (v : JVal) :
    dictLookup (dictInsert d k v) k1 = if k1 = k then some v else dictLookup d k1 := by
  induction d with
  | nil =>
      simp only [dictInsert, dictLookup]
      by_cases h : k1 = k
      · rw [if_pos h.symm, if_pos h]
      · rw [if_neg (fun hh => h hh.symm), if_neg h]
  | cons hd tl ih =>
      obtain ⟨k2, v2⟩ := hd
      by_cases h2 : k2 = k
      · subst h2
        simp only [dictInsert, if_pos rfl, dictLookup]
        by_cases h1 : k2 = k1
        · subst h1
          rw [if_pos rfl, if_pos rfl]
        · rw [if_neg h1, if_neg (fun hh => h1 hh.symm), if_neg h1]
      · simp only [dictInsert, if_neg h2, dictLookup]
        by_cases h1 : k2 = k1
        · subst h1
          rw [if_pos rfl, if_neg h2, if_pos rfl]
        · rw [if_neg h1, if_neg h1, ih]

theorem applyDateFilter_empty_dates (o : EEObject) :
    applyDateFilter o (some "") (some "") = Except.ok o := rfl

theorem applyDateFilter_none_dates (o : EEObject) :
    applyDateFilter o none none = Except.ok o := rfl

/-- Claim C1: for every backend environment and every input, get_tile either
returns the tile URL produced by a successful run of the pipeline, or
returns a string that is the literal marker "Error" followed by the failure
message; it never propagates an exception. -/
theorem get_tile_never_raises (env : Env) (assetId : String) (vis : VisSource)
    (startDate endDate : Option String) (bbox : Option (List Rat)) :
    (∃ u, get_tile_except env assetId vis startDate endDate bbox = Except.ok u ∧
        get_tile env assetId vis startDate endDate bbox = u) ∨
    (∃ m, get_tile env assetId vis startDate endDate bbox = "Error: " ++ m) := by
  cases h : get_tile_except env assetId vis startDate endDate bbox with
  | error m => exact Or.inr ⟨m, by simp [get_tile, h]⟩
  | ok u => exact Or.inl ⟨u, rfl, by simp [get_tile, h]⟩

/-- Claim C2, counterexample: a whitespace-only vis_params string does not
normalize to the empty mapping; it has nonzero length and is not
brace-delimited, so the code raises ValueError and normalization yields an
error result. -/
theorem normalize_blank_string_is_error :
    normalizeVisSource defEnv (VisSource.str " ") =
      Except.error "Unsupported vis_params type: str" := rfl

/-- Claim C2, amended: a vis_params source that is absent (None) or the
empty string normalizes to the empty mapping and never to an error (given
that json.loads maps the empty-object string to the empty dict, as Python's
json module does); a whitespace-only non-empty string instead fails. -/
theorem normalize_none_or_empty (env : Env)
    (hjson : env.jsonLoads "\x7b\x7d" = Except.ok []) :
    normalizeVisSource env VisSource.none = Except.ok [] ∧
    normalizeVisSource env (VisSource.str "") = Except.ok [] := by
  refine ⟨rfl, ?_⟩
  have h1 : normalizeVisSource env (VisSource.str "") =
      match env.jsonLoads "\x7b\x7d" with
      | .ok d => validateDictPalette env d
      | .error m => .error m := rfl
  rw [h1, hjson]
  rfl

theorem normalize_none_or_empty_witness :
    normalizeVisSource defEnv VisSource.none = Except.ok [] ∧
    normalizeVisSource defEnv (VisSource.str "") = Except.ok [] :=
  normalize_none_or_empty defEnv rfl

/-- Claim C3, counterexample: a present bbox that is the empty list has
length 0 but does not make get_tile fail with InvalidBounds: the
empty list is falsy in Python, so the whole bbox block is skipped and the
call succeeds. -/
theorem get_tile_empty_bbox_succeeds :
    get_tile defEnv "USGS/SRTMGL1_003" VisSource.none none none (some []) =
      "https://earthengine.googleapis.com/map/tiles" := rfl

/-- Claim C3, amended: for every present non-empty bbox whose length is not
4, once asset resolution and date filtering have succeeded, get_tile fails
with the InvalidBounds error, regardless of the handle's type; a present
empty-list bbox is falsy and is skipped like an absent bbox. -/
theorem get_tile_bad_bbox_length (env : Env) (assetId : String) (vis : VisSource)
    (startDate endDate : Option String) (b : List Rat) (o o2 : EEObject)
    (hres : resolveAsset env assetId = Except.ok o)
    (hdate : applyDateFilter o startDate endDate = Except.ok o2)
    (hne : b ≠ []) (hlen : b.length ≠ 4) :
    get_tile env assetId vis startDate endDate (some b) =
      "Error: bbox must be a list of 4 values: [west, south, east, north]" := by
  simp [get_tile, get_tile_except, resolveFiltered, hres, hdate, applyBBox, hne, hlen]

theorem get_tile_bad_bbox_length_witness :
    resolveAsset defEnv "USGS/SRTMGL1_003" = Except.ok (EEObject.image "USGS/SRTMGL1_003") ∧
    applyDateFilter (EEObject.image "USGS/SRTMGL1_003") none none =
      Except.ok (EEObject.image "USGS/SRTMGL1_003") ∧
    ([(1 : Rat), 2, 3] ≠ []) ∧ ([(1 : Rat), 2, 3].length ≠ 4) ∧
    get_tile defEnv "USGS/SRTMGL1_003" VisSource.none none none (some [(1 : Rat), 2, 3]) =
      "Error: bbox must be a list of 4 values: [west, south, east, north]" :=
  ⟨rfl, rfl, by simp, by simp,
    get_tile_bad_bbox_length defEnv "USGS/SRTMGL1_003" VisSource.none none none
      [(1 : Rat), 2, 3] (EEObject.image "USGS/SRTMGL1_003") (EEObject.image "USGS/SRTMGL1_003")
      rfl rfl (by simp) (by simp)⟩

/-- Claim C10: calling get_tile with both dates equal to the empty string
behaves exactly as calling it with both dates absent: the empty string is
falsy, so temporal filtering is skipped for every handle without raising
UnsupportedFilter, and the overall result is identical. -/
theorem get_tile_empty_dates_as_none (env : Env) (assetId : String)
    (vis : VisSource) (bbox : Option (List Rat)) :
    get_tile env assetId vis (some "") (some "") bbox =
      get_tile env assetId vis none none bbox ∧
    (∀ o : EEObject, applyDateFilter o (some "") (some "") = Except.ok o) := by
  constructor
  · simp only [get_tile, get_tile_except, resolveFiltered]
    cases resolveAsset env assetId with
    | error m => rfl
    | ok o => simp only [applyDateFilter_empty_dates, applyDateFilter_none_dates]
  · exact applyDateFilter_empty_dates

/-- Claim C4: whenever the resolved handle is not an ImageCollection and the
temporal range is non-empty (at least one truthy date), get_tile fails with
the UnsupportedFilter error stating that date filtering is only supported
for collections, for every combination of dates, vis_params, and bbox. -/
theorem get_tile_date_filter_non_collection (env : Env) (assetId : String)
    (vis : VisSource) (startDate endDate : Option String) (bbox : Option (List Rat))
    (o : EEObject)
    (hres : resolveAsset env assetId = Except.ok o)
    (htag : isImageCollection o = false)
    (hdate : (strTruthy startDate || strTruthy endDate) = true) :
    get_tile env assetId vis startDate endDate bbox =
      "Error: Date filtering is only supported for ImageCollections" := by
  simp [get_tile, get_tile_except, resolveFiltered, hres, applyDateFilter, hdate, htag]

theorem get_tile_date_filter_non_collection_witness :
    resolveAsset defEnv "USGS/SRTMGL1_003" = Except.ok (EEObject.image "USGS/SRTMGL1_003") ∧
    isImageCollection (EEObject.image "USGS/SRTMGL1_003") = false ∧
    (strTruthy (some "2023-01-01") || strTruthy none) = true ∧
    get_tile defEnv "USGS/SRTMGL1_003" VisSource.none (some "2023-01-01") none none =
      "Error: Date filtering is only supported for ImageCollections" :=
  ⟨rfl, rfl, rfl,
    get_tile_date_filter_non_collection defEnv "USGS/SRTMGL1_003" VisSource.none
      (some "2023-01-01") none none (EEObject.image "USGS/SRTMGL1_003") rfl rfl rfl⟩

/-- Claim C5: for a catalog (non-expression) identifier whose declared type
the catalog reports, resolution maps IMAGE to an Image handle,
IMAGE_COLLECTION to an ImageCollection handle, TABLE and TABLE_COLLECTION
to a FeatureTable (FeatureCollection) handle, and any other declared type
to the unsupported-type error. -/
theorem resolveAsset_catalog_type_mapping (env : Env) (a t : String)
    (hexpr : pyStartsWith a "ee." = false)
    (hcat : env.getAsset a = Except.ok t) :
    (t = "IMAGE" → resolveAsset env a = Except.ok (EEObject.image a)) ∧
    (t = "IMAGE_COLLECTION" → resolveAsset env a = Except.ok (EEObject.imageCollection a)) ∧
    ((t = "TABLE" ∨ t = "TABLE_COLLECTION") →
      resolveAsset env a = Except.ok (EEObject.featureCollection a)) ∧
    (t ≠ "IMAGE" → t ≠ "IMAGE_COLLECTION" → t ≠ "TABLE" → t ≠ "TABLE_COLLECTION" →
      resolveAsset env a = Except.error ("Unsupported data type: " ++ t)) := by
  have hR : resolveAsset env a =
      (if t = "IMAGE" then Except.ok (EEObject.image a)
       else if t = "IMAGE_COLLECTION" then Except.ok (EEObject.imageCollection a)
       else if t = "TABLE" ∨ t = "TABLE_COLLECTION" then
         Except.ok (EEObject.featureCollection a)
       else Except.error ("Unsupported data type: " ++ t)) := by
    simp [resolveAsset, hexpr, hcat]
  refine ⟨?_, ?_, ?_, ?_⟩
  · intro h; subst h; rw [hR]; rfl
  · intro h; subst h; rw [hR]; rfl
  · rintro (h | h) <;> (subst h; rw [hR]; rfl)
  · intro h1 h2 h3 h4
    rw [hR, if_neg h1, if_neg h2, if_neg (not_or.mpr ⟨h3, h4⟩)]

theorem resolveAsset_catalog_type_mapping_witness :
    pyStartsWith "some/table" "ee." = false ∧
    defEnv.getAsset "some/table" = Except.ok "TABLE" ∧
    resolveAsset defEnv "some/table" = Except.ok (EEObject.featureCollection "some/table") :=
  ⟨rfl, rfl,
    (resolveAsset_catalog_type_mapping defEnv "some/table" "TABLE" rfl rfl).2.2.1 (Or.inl rfl)⟩

theorem applyDateFilter_collection (o : EEObject) (startDate endDate : Option String)
    (htag : isImageCollection o = true)
    (hdate : (strTruthy startDate || strTruthy endDate) = true) :
    ∃ sd ed, applyDateFilter o startDate endDate = Except.ok (EEObject.filterDate o sd ed) := by
  unfold applyDateFilter
  rw [hdate, if_pos rfl, htag, if_pos rfl]
  cases hs : presentStr startDate with
  | some sd =>
      cases he : presentStr endDate with
      | some ed => exact ⟨sd, ed, rfl⟩
      | none => exact ⟨sd, "2100-01-01", rfl⟩
  | none =>
      cases he : presentStr endDate with
      | some ed => exact ⟨"1970-01-01", ed, rfl⟩
      | none =>
          exfalso
          simp only [strTruthy, hs, he] at hdate
          simp at hdate

/-- Claim C6: for an ImageCollection handle with a non-empty temporal range
and a present bbox of length 4 that the geometry constructor accepts, the
pipeline applies the date filter first and the bounds filter second, so the
filtered handle is filterBounds(filterDate(handle, ...), geometry). -/
theorem resolveFiltered_temporal_before_spatial (env : Env) (assetId : String)
    (startDate endDate : Option String) (b : List Rat) (o : EEObject) (g : Geometry)
    (hres : resolveAsset env assetId = Except.ok o)
    (htag : isImageCollection o = true)
    (hdate : (strTruthy startDate || strTruthy endDate) = true)
    (hlen : b.length = 4)
    (hgeom : env.bboxGeometry b = Except.ok g) :
    ∃ sd ed, resolveFiltered env assetId startDate endDate (some b) =
      Except.ok (EEObject.filterBounds (EEObject.filterDate o sd ed) g) := by
  have hbne : b ≠ [] := by
    intro h
    rw [h] at hlen
    exact absurd hlen (by decide)
  obtain ⟨sd, ed, hdf⟩ := applyDateFilter_collection o startDate endDate htag hdate
  refine ⟨sd, ed, ?_⟩
  have hcol : isImageCollection (EEObject.filterDate o sd ed) = true := htag
  simp only [resolveFiltered, hres, hdf]
  simp [applyBBox, hbne, hlen, hgeom, hcol]

theorem resolveFiltered_temporal_before_spatial_witness :
    resolveAsset defEnv "some/collection" =
      Except.ok (EEObject.imageCollection "some/collection") ∧
    isImageCollection (EEObject.imageCollection "some/collection") = true ∧
    (strTruthy (some "2023-01-01") || strTruthy (some "2023-12-31")) = true ∧
    [(-122.5 : Rat), 37.5, -122.0, 38.0].length = 4 ∧
    defEnv.bboxGeometry [(-122.5 : Rat), 37.5, -122.0, 38.0] =
      Except.ok ⟨[(-122.5 : Rat), 37.5, -122.0, 38.0]⟩ ∧
    (∃ sd ed, resolveFiltered defEnv "some/collection" (some "2023-01-01")
        (some "2023-12-31") (some [(-122.5 : Rat), 37.5, -122.0, 38.0]) =
      Except.ok (EEObject.filterBounds
        (EEObject.filterDate (EEObject.imageCollection "some/collection") sd ed)
        ⟨[(-122.5 : Rat), 37.5, -122.0, 38.0]⟩)) :=
  ⟨rfl, rfl, rfl, rfl, by norm_num [defEnv],
    resolveFiltered_temporal_before_spatial defEnv "some/collection" (some "2023-01-01")
      (some "2023-12-31") [(-122.5 : Rat), 37.5, -122.0, 38.0]
      (EEObject.imageCollection "some/collection")
      ⟨[(-122.5 : Rat), 37.5, -122.0, 38.0]⟩ rfl rfl rfl rfl (by norm_num [defEnv])⟩

/-- Claim C7: for every brace-delimited string that json.loads parses to a
dict, normalizing the string form yields the same result as normalizing the
already-parsed dict, including identical palette validation. -/
theorem normalize_string_agrees_with_parsed (env : Env) (s : String) (d : VisDict)
    (hpre : pyStartsWith s "\x7b" = true)
    (hsuf : pyEndsWith s "\x7d" = true)
    (hparse : env.jsonLoads s = Except.ok d) :
    normalizeVisSource env (VisSource.str s) = normalizeVisSource env (VisSource.dict d) := by
  have hne : s ≠ "" := by
    intro h
    rw [h] at hpre
    exact absurd hpre (by decide)
  simp [normalizeVisSource, if_neg hne, hpre, hsuf, hparse]

theorem normalize_string_agrees_with_parsed_witness :
    pyStartsWith "\x7b\x7d" "\x7b" = true ∧
    pyEndsWith "\x7b\x7d" "\x7d" = true ∧
    defEnv.jsonLoads "\x7b\x7d" = Except.ok [] ∧
    normalizeVisSource defEnv (VisSource.str "\x7b\x7d") =
      normalizeVisSource defEnv (VisSource.dict []) :=
  ⟨rfl, rfl, rfl,
    normalize_string_agrees_with_parsed defEnv "\x7b\x7d" [] rfl rfl rfl⟩

/-- Claim C8: normalizing an already-structured dict leaves every key other
than palette bound to its original value; when no palette entry is present
the dict is returned unchanged, and when one is present the result is
exactly the caller-supplied dict with the palette entry replaced in place by
its validated form. -/
theorem normalize_dict_frame (env : Env) (d d2 : VisDict)
    (hnorm : normalizeVisSource env (VisSource.dict d) = Except.ok d2) :
    (∀ k, k ≠ "palette" → dictLookup d2 k = dictLookup d k) ∧
    (dictLookup d "palette" = none → d2 = d) ∧
    (∀ p, dictLookup d "palette" = some p →
      ∃ p2, env.validatePalette p = Except.ok p2 ∧ d2 = dictInsert d "palette" p2) := by
  have h0 : validateDictPalette env d = Except.ok d2 := hnorm
  cases hp : dictLookup d "palette" with
  | none =>
      simp only [validateDictPalette, hp] at h0
      obtain rfl : d = d2 := by injection h0
      exact ⟨fun k _ => rfl, fun _ => rfl, fun p hp2 => Option.noConfusion hp2⟩
  | some p =>
      simp only [validateDictPalette, hp] at h0
      cases hv : env.validatePalette p with
      | error m => rw [hv] at h0; exact absurd h0 (by simp)
      | ok p2 =>
          rw [hv] at h0
          obtain rfl : dictInsert d "palette" p2 = d2 := by injection h0
          refine ⟨?_, ?_, ?_⟩
          · intro k hk
            rw [dictLookup_dictInsert, if_neg hk]
          · intro hnone
            exact Option.noConfusion hnone
          · intro q hq
            obtain rfl : p = q := by injection hq
            exact ⟨p2, hv, rfl⟩

theorem normalize_dict_frame_witness :
    normalizeVisSource defEnv
        (VisSource.dict [("min", JVal.jnum 0), ("palette", JVal.jstr "terrain")]) =
      Except.ok [("min", JVal.jnum 0), ("palette", JVal.jstr "terrain")] ∧
    dictLookup [("min", JVal.jnum 0), ("palette", JVal.jstr "terrain")] "min" =
      dictLookup [("min", JVal.jnum 0), ("palette", JVal.jstr "terrain")] "min" :=
  ⟨rfl,
    (normalize_dict_frame defEnv [("min", JVal.jnum 0), ("palette", JVal.jstr "terrain")]
        [("min", JVal.jnum 0), ("palette", JVal.jstr "terrain")] rfl).1 "min" (by decide)⟩

/-- Claim C9: on the interactive surface, a non-blank bbox string whose
parse as comma-separated floats fails makes get_tile_gradio return exactly
the literal error string, for every backend environment and all other
arguments, so the get_tile pipeline is never consulted. -/
theorem gradio_bad_bbox_returns_literal (env : Env) (assetId : String) (vis : VisSource)
    (startDate endDate bboxStr : String)
    (hnb : pyStrip bboxStr ≠ "")
    (hparse : parseBBoxStr env bboxStr = none) :
    get_tile_gradio env assetId vis startDate endDate bboxStr =
      "Error: bbox must be comma-separated numbers (west,south,east,north)" := by
  simp [get_tile_gradio, if_neg hnb, hparse]

theorem gradio_bad_bbox_returns_literal_witness :
    pyStrip "abc" ≠ "" ∧ parseBBoxStr defEnv "abc" = none ∧
    get_tile_gradio defEnv "USGS/SRTMGL1_003" VisSource.none "" "" "abc" =
      "Error: bbox must be comma-separated numbers (west,south,east,north)" :=
  ⟨by decide, rfl,
    gradio_bad_bbox_returns_literal defEnv "USGS/SRTMGL1_003" VisSource.none "" "" "abc"
      (by decide) rfl⟩
